import Mathlib

/-!
Shallow embedding of the tribunsys tax-qualification engine.

Sources embedded here:
- `src/utils/validators.py` (clean_rut, format_rut, calculate_rut_dv,
  validate_rut, validate_factor_sum)
- `src/views/taxManagementWindow.py` (`_update_preview_monto`, the subsidy
  cascade preview)
- `src/services/taxService.py` (CalificacionTributariaService)
- `src/services/massiveLoadService.py` (CargaMasivaService)

Modelling conventions:
- Python `str` values are `String` or `List Char` (for the RUT utilities,
  which walk characters).
- Python `float` / `Decimal` values are `ℚ`: the claims under study are
  about decimal arithmetic, not binary-float rounding, and both the spec
  and the code treat the quantities as exact decimals.
- A value that `float(...)` may fail to coerce is an `FVal`; the failure
  carries the exception text.
- Firestore documents are records in a `List Registro`; a filtered query
  with `limit(1)` is `List.filter` followed by `head?`.
- A Python function that catches all exceptions and returns a fallback is
  modelled with an explicit `raises : Bool` input selecting the
  exceptional path where a claim depends on it.
-/

/-- A Python value submitted to `float(...)`: either it coerces to a
number, or the coercion raises with the given message. -/
inductive FVal where
  | num (q : ℚ)
  | nonnum (msg : String)
deriving DecidableEq

/-- Python `float(v)`: returns the number or raises (modelled as `Except`).
The error string is the exception text. -/
def pyFloat : FVal → Except String ℚ
  | .num q => .ok q
  | .nonnum msg => .error msg

/-- Round a rational to the nearest integer, ties to even
(Python/`decimal` default rounding `ROUND_HALF_EVEN`). -/
def roundHalfEven (x : ℚ) : ℤ :=
  let f : ℤ := ⌊x⌋
  let r : ℚ := x - f
  if r < 1/2 then f
  else if 1/2 < r then f + 1
  else if f % 2 = 0 then f else f + 1

/-- Decimal string of a natural number of hundredths, two digits after the
point (`123` ↦ `"1.23"`). -/
def fmt2nat (m : ℕ) : String :=
  let frac := m % 100
  toString (m / 100) ++ "." ++ (if frac < 10 then "0" ++ toString frac else toString frac)

/-- Python `f"{x:.2f}"`: the value rounded to two decimal places
(ties to even) and printed with exactly two digits after the point. -/
def fmt2 (q : ℚ) : String :=
  let n := roundHalfEven (q * 100)
  if n < 0 then "-" ++ fmt2nat (-n).toNat else fmt2nat n.toNat

/-- `decimal.Decimal.quantize(Decimal("0.01"))` with the default
`ROUND_HALF_EVEN` context: round to two decimal places. -/
def quantize2 (q : ℚ) : ℚ :=
  (roundHalfEven (q * 100) : ℚ) / 100

/-! ### `validate_factor_sum` (src/utils/validators.py, lines 159-195)

The factor dictionary `{f"factor_{i}": value}` is modelled as a partial
map `ℕ → Option FVal` from the factor index `i` to the stored value
(`none` when the key `f"factor_{i}"` is absent, in which case the Python
loop skips the index). -/

/-- Loop body of `validate_factor_sum`: iterate over the `n` indices
`i, i+1, …, i+n-1`, accumulating `total`; after the loop, check the sum
bound and return the success/failure pair exactly as the Python does. -/
def vfsLoop (factors : ℕ → Option FVal) (start stop : ℕ) :
    ℕ → ℕ → ℚ → Bool × String
  | _, 0, total =>
      if total > 1 then
        (false, "La suma de los factores " ++ toString start ++ " al " ++
          toString stop ++ " no puede superar 1.0 (actual: " ++ fmt2 total ++ ")")
      else
        (true, "Suma de factores válida: " ++ fmt2 total)
  | i, n + 1, total =>
      match factors i with
      | none => vfsLoop factors start stop (i + 1) n total
      | some v =>
          match pyFloat v with
          | .error _ =>
              (false, "El factor_" ++ toString i ++ " debe ser un valor numérico")
          | .ok value =>
              if value < 0 ∨ value > 1 then
                (false, "El factor_" ++ toString i ++ " debe estar entre 0 y 1")
              else
                vfsLoop factors start stop (i + 1) n (total + value)

/-- `validate_factor_sum(factors, start, end)`: validates that every
present factor in the window `start..stop` is numeric and in `[0,1]` and
that the window sum does not exceed `1.0`; returns `(ok, message)`. -/
def validate_factor_sum (factors : ℕ → Option FVal)
    (start : ℕ := 8) (stop : ℕ := 19) : Bool × String :=
  vfsLoop factors start stop start (stop + 1 - start) 0

/-- The exact sum of the numeric values of the present window entries
`i..i+n-1` (specification-side quantity used to state the claims). -/
def windowSum (factors : ℕ → Option FVal) : ℕ → ℕ → ℚ
  | _, 0 => 0
  | i, n + 1 =>
      (match factors i with
       | some (.num v) => v
       | _ => 0) + windowSum factors (i + 1) n

/-- A window entry at index `j` is well-formed: if present, it is
numeric with a value in `[0,1]`. -/
def GoodAt (factors : ℕ → Option FVal) (j : ℕ) : Prop :=
  ∀ v, factors j = some v → ∃ q, v = FVal.num q ∧ 0 ≤ q ∧ q ≤ 1

/-! ### RUT utilities (src/utils/validators.py, lines 5-109)

Python strings are modelled as `List Char` so that the character-level
operations (`replace`, `upper`, `reversed`, indexing) are explicit. -/

/-- `clean_rut`: `rut.replace(".", "").replace("-", "").upper()`.
`str.upper` on the ASCII identifiers at play is `Char.toUpper`
character-wise. -/
def clean_rut (rut : List Char) : List Char :=
  (rut.filter (fun c => c ≠ '.' ∧ c ≠ '-')).map Char.toUpper

/-- The dot-insertion loop of `format_rut`: iterate over the reversed
digit list with index `i`, prepending a dot before every third digit
(`if i > 0 and i % 3 == 0`), then the digit itself. -/
def formatLoop : List Char → ℕ → List Char → List Char
  | [], _, acc => acc
  | d :: rest, i, acc =>
      formatLoop rest (i + 1) (d :: (if 0 < i ∧ i % 3 = 0 then '.' :: acc else acc))

/-- `format_rut`: clean, split off the check character, group the body in
threes with dots, and join with a dash. -/
def format_rut (rut : List Char) : List Char :=
  let c := clean_rut rut
  if c.length < 2 then c
  else
    let dv := c.getLastD ' '
    let numero := c.dropLast
    formatLoop numero.reverse 0 [] ++ '-' :: [dv]

/-- Python `int(ch)` on a digit character. -/
def charToDigit (ch : Char) : ℕ := ch.toNat - 48

/-- The weighted sum of `calculate_rut_dv`:
`sum(d * factors[i % 6] for i, d in enumerate(reversed_digits))` with
`factors = [2, 3, 4, 5, 6, 7]`. -/
def rutWeightedSum : List ℕ → ℕ → ℕ
  | [], _ => 0
  | d :: rest, i => d * [2, 3, 4, 5, 6, 7].getD (i % 6) 0 + rutWeightedSum rest (i + 1)

/-- `calculate_rut_dv`: modulus-11 check character of a digit string
(`11 - s % 11`, mapping `11 ↦ "0"`, `10 ↦ "K"`, else the digit). -/
def calculate_rut_dv (rut_number : List Char) : List Char :=
  let s := rutWeightedSum (rut_number.reverse.map charToDigit) 0
  let dv := 11 - s % 11
  if dv = 11 then ['0']
  else if dv = 10 then ['K']
  else [Char.ofNat (48 + dv)]

/-- Python `str.isdigit()`: true on a nonempty all-digit string. -/
def pyIsdigit (l : List Char) : Bool :=
  !l.isEmpty && l.all Char.isDigit

/-- Body of `validate_rut` after the initial emptiness test and the
`clean_rut` call: all remaining checks depend only on the cleaned value. -/
def validate_cleaned (rut_clean : List Char) : Bool × String :=
  if rut_clean.length < 2 then
    (false, "El RUT debe tener al menos 2 caracteres")
  else
    let rut_number := rut_clean.dropLast
    let dv_provided := rut_clean.getLastD ' '
    if ¬ pyIsdigit rut_number then
      (false, "El RUT debe contener solo números antes del dígito verificador")
    else if rut_number.length < 7 ∨ rut_number.length > 8 then
      (false, "El RUT debe tener entre 7 y 8 dígitos")
    else if [dv_provided] ≠ calculate_rut_dv rut_number then
      (false, "El dígito verificador del RUT es inválido")
    else
      (true, "RUT válido")

/-- `validate_rut`: reject the empty string, clean, then run the checks
of `validate_cleaned`. -/
def validate_rut (rut : List Char) : Bool × String :=
  if rut.isEmpty then (false, "El RUT no puede estar vacío")
  else validate_cleaned (clean_rut rut)

/-- A character that `clean_rut` passes through unchanged: not a
separator, and a fixed point of upper-casing. Every character of a
cleaned valid identifier (digits and `K`) satisfies this. -/
def cleanFixed (c : Char) : Prop :=
  c ≠ '.' ∧ c ≠ '-' ∧ c.toUpper = c

/-! ### Subsidy cascade preview
(`_update_preview_monto`, src/views/taxManagementWindow.py, lines 343-364)

The widget resolves each selected subsidy id through the in-memory map
with a service fallback; both lookups together are modelled as one
`lookup : String → Option ℚ` returning the subsidy's `valor_porcentual`
(a fraction in `[0,1]`) when the id resolves. An id that resolves to no
stored subsidy hits the `continue` branch and is skipped. -/

/-- One loop iteration: skip an unresolved id, otherwise multiply the
running amount by `(1 - vp)` and quantize to two decimals. -/
def cascadeStep (lookup : String → Option ℚ) (monto : ℚ) (sid : String) : ℚ :=
  match lookup sid with
  | none => monto
  | some vp => quantize2 (monto * (1 - vp))

/-- `_update_preview_monto`'s amount computation: fold the cascade step
over the selected subsidy ids in list order. -/
def update_preview_monto (lookup : String → Option ℚ) (monto0 : ℚ)
    (selected_ids : List String) : ℚ :=
  selected_ids.foldl (cascadeStep lookup) monto0

/-! ### Shared store model

Both services write to the same Firestore collection
(`Settings.COLLECTION_DATOS_TRIBUTARIOS`). A document id is a `String`;
the field values a record carries mirror the dictionaries the two
services build. The local creation path stores a plain string under
`clienteId`, while the bulk importer stores the 2-tuple returned by its
`validate_cliente` (see C10); Firestore equality between values of
different shapes is plain disequality, so `clienteId` is a sum. -/

/-- A value stored in the `clienteId` field: a plain string id (local
creation path) or the `(cliente_id, error_message)` tuple the bulk
importer passes through unchanged. -/
inductive CId where
  | str (v : String)
  | pair (v : Option String × Option String)
deriving DecidableEq

/-- The fields of a tax-qualification document (everything except the
store-assigned document id). `fechaEliminacion` is only ever set by the
soft delete. Timestamps are abstract instants (`ℕ`). -/
structure RegData where
  clienteId : CId
  usuarioCargaId : String
  propietarioRegistroId : String
  fechaDeclaracion : String
  tipoImpuesto : String
  pais : String
  montoDeclarado : ℚ
  factores : List (String × ℚ)
  subsidiosAplicados : List String
  esLocal : Bool
  fechaCreacion : ℕ
  fechaModificacion : ℕ
  activo : Bool
  fechaEliminacion : Option ℕ := none
deriving DecidableEq

/-- A stored document: id plus fields. -/
structure Registro where
  _id : String
  data : RegData
deriving DecidableEq

/-- A document in the parties collection (`COLLECTION_USUARIOS`). -/
structure Cliente where
  id : String
  rut : String
  rol : String
deriving DecidableEq

/-- `datos_ref.document(id).get()`: ids are unique in Firestore, so the
lookup is the first (only) match. -/
def getDoc (store : List Registro) (id : String) : Option Registro :=
  store.find? (fun r => r._id = id)

/-! ### CalificacionTributariaService (src/services/taxService.py) -/

/-- The `datos` dictionary handed to `crear_calificacion` /
`actualizar_calificacion`. `fecha_declaracion` is the `datetime` already
rendered through `strftime("%Y-%m-%d")` (the rendering is injective on
dates and not itself under study). -/
structure DatosCalif where
  cliente_id : String
  fecha_declaracion : String
  tipo_impuesto : String
  pais : String
  monto_declarado : ℚ
  factores : List ℚ
  subsidios_aplicados : List String

/-- `_validar_datos` (taxService.py lines 366-394): required-field
truthiness in dictionary order, positive amount, exactly 19 factors each
in `[0,1]`, then the window-sum rule via `validate_factor_sum`.
Python truthiness per field type: the `datetime` under
`fecha_declaracion` is always truthy; a string is truthy iff nonempty; a
number iff nonzero; a list iff nonempty. -/
def validar_datos (d : DatosCalif) : Bool × String :=
  if d.tipo_impuesto = "" then (false, "El campo 'tipo_impuesto' es requerido")
  else if d.pais = "" then (false, "El campo 'pais' es requerido")
  else if d.monto_declarado = 0 then (false, "El campo 'monto_declarado' es requerido")
  else if d.factores = [] then (false, "El campo 'factores' es requerido")
  else if d.monto_declarado ≤ 0 then (false, "El monto declarado debe ser positivo")
  else if d.factores.length ≠ 19 then (false, "Se requieren exactamente 19 factores")
  else
    match (List.range d.factores.length).find?
        (fun k => ¬ (0 ≤ d.factores.getD k 0 ∧ d.factores.getD k 0 ≤ 1)) with
    | some k => (false, "El factor " ++ toString (k + 1) ++ " debe estar entre 0 y 1")
    | none =>
        match validate_factor_sum
            (fun i => if 1 ≤ i ∧ i ≤ 19 then some (.num (d.factores.getD (i - 1) 0)) else none)
            8 19 with
        | (false, m) => (false, m)
        | (true, _) => (true, "Validación exitosa")

/-- `_preparar_factores`: list of 19 factors to the
`{f"factor_{i}": float(value)}` dictionary (assoc list in key order). -/
def preparar_factores (factores : List ℚ) : List (String × ℚ) :=
  (List.range 19).map (fun k => ("factor_" ++ toString (k + 1), factores.getD k 0))

/-- `CalificacionTributariaService._validate_cliente` (no role filter):
first party with the given RUT, `(doc.id, None)` when found,
`(None, message)` otherwise. -/
def tax_validate_cliente (clientes : List Cliente) (rut : String) :
    Option String × Option String :=
  match (clientes.filter (fun c => c.rut = rut)).head? with
  | some c => (some c.id, none)
  | none => (none, some ("Cliente con RUT " ++ rut ++ " no está registrado en el sistema"))

/-- The predicate of `buscar_conflicto_oficial`'s query: same client,
date and tax type, authoritative (`esLocal == False`) and active. -/
def conflictoPred (cliente_id : CId) (fecha tipo : String) (r : Registro) : Bool :=
  r.data.clienteId = cliente_id ∧ r.data.fechaDeclaracion = fecha ∧
    r.data.tipoImpuesto = tipo ∧ r.data.esLocal = false ∧ r.data.activo = true

/-- `buscar_conflicto_oficial` (taxService.py lines 263-300): the
`limit(1)` query's first hit, or `None`; the surrounding
`try/except` returns `None` when the store raises (`raises = true`). -/
def buscar_conflicto_oficial (store : List Registro) (raises : Bool)
    (cliente_id : CId) (fecha tipo : String) : Option Registro :=
  if raises then none
  else (store.filter (conflictoPred cliente_id fecha tipo)).head?

/-- Result dictionary of `crear_calificacion`; absent keys are the
defaults. -/
structure CrearResult where
  success : Bool
  message : String
  calificacion_id : Option String := none
  conflicto : Bool := false
  cliente_no_registrado : Bool := false
  dato_oficial : Option (String × ℚ × String) := none
deriving DecidableEq

/-- Environment of a `crear_calificacion` call: the parties collection,
whether the conflict query raises, the current instant, and the id the
store will assign to a newly added document. -/
structure CrearEnv where
  clientes : List Cliente
  conflictRaises : Bool := false
  now : ℕ
  freshId : String

/-- `crear_calificacion` (taxService.py lines 19-102): validate, resolve
the client, check for an official conflict, then persist a new LOCAL
(`esLocal = True`) active record. Returns the result dictionary and the
store after the call. -/
def crear_calificacion (env : CrearEnv) (store : List Registro)
    (datos : DatosCalif) (usuario_id : String) : CrearResult × List Registro :=
  match validar_datos datos with
  | (false, mensaje) => ({ success := false, message := mensaje }, store)
  | (true, _) =>
    match tax_validate_cliente env.clientes datos.cliente_id with
    | (none, error) =>
        ({ success := false,
           message := "No se puede crear la calificación: " ++ error.getD "",
           cliente_no_registrado := true }, store)
    | (some cliente_id, _) =>
      match buscar_conflicto_oficial store env.conflictRaises (CId.str cliente_id)
          datos.fecha_declaracion datos.tipo_impuesto with
      | some conflicto =>
          ({ success := false,
             message := "Ya existe una calificación oficial de bolsa con estos datos",
             conflicto := true,
             dato_oficial := some (conflicto._id, conflicto.data.montoDeclarado,
               conflicto.data.fechaDeclaracion) }, store)
      | none =>
          let calificacion : RegData :=
            { clienteId := CId.str cliente_id
              usuarioCargaId := usuario_id
              propietarioRegistroId := usuario_id
              fechaDeclaracion := datos.fecha_declaracion
              tipoImpuesto := datos.tipo_impuesto
              pais := datos.pais
              montoDeclarado := datos.monto_declarado
              factores := preparar_factores datos.factores
              subsidiosAplicados := datos.subsidios_aplicados
              esLocal := true
              fechaCreacion := env.now
              fechaModificacion := env.now
              activo := true }
          ({ success := true, message := "Calificación creada exitosamente",
             calificacion_id := some env.freshId },
           store ++ [⟨env.freshId, calificacion⟩])

/-- Result dictionary of `actualizar_calificacion` /
`eliminar_calificacion`. -/
structure OpResult where
  success : Bool
  message : String
deriving DecidableEq

/-- `document(id).update({...})` of `actualizar_calificacion`: merge the
listed fields into the (unique) document with this id. -/
def applyActualizacion (store : List Registro) (id : String) (datos : DatosCalif)
    (now : ℕ) : List Registro :=
  store.map (fun r =>
    if r._id = id then
      ⟨r._id,
       { r.data with
          fechaDeclaracion := datos.fecha_declaracion
          tipoImpuesto := datos.tipo_impuesto
          pais := datos.pais
          montoDeclarado := datos.monto_declarado
          factores := preparar_factores datos.factores
          subsidiosAplicados := datos.subsidios_aplicados
          fechaModificacion := now }⟩
    else r)

/-- `actualizar_calificacion` (taxService.py lines 104-176): load the
document; administrators pass, any other role must own a LOCAL record;
then re-validate and merge the update. -/
def actualizar_calificacion (store : List Registro) (calificacion_id : String)
    (datos : DatosCalif) (usuario_id : String) (rol : String) (now : ℕ) :
    OpResult × List Registro :=
  match getDoc store calificacion_id with
  | none => ({ success := false, message := "Calificación no encontrada" }, store)
  | some doc =>
      if rol ≠ "administrador" ∧ doc.data.esLocal = false then
        ({ success := false,
           message := "No se puede modificar una calificación de bolsa" }, store)
      else if rol ≠ "administrador" ∧ doc.data.propietarioRegistroId ≠ usuario_id then
        ({ success := false,
           message := "No tiene permisos para editar esta calificación" }, store)
      else
        match validar_datos datos with
        | (false, mensaje) => ({ success := false, message := mensaje }, store)
        | (true, _) =>
            ({ success := true, message := "Calificación actualizada exitosamente" },
             applyActualizacion store calificacion_id datos now)

/-- `eliminar_calificacion` (taxService.py lines 178-236): load the
document; same authorization rule as update; then soft delete
(`activo = False`, `fechaEliminacion = now`). -/
def eliminar_calificacion (store : List Registro) (calificacion_id : String)
    (usuario_id : String) (rol : String) (now : ℕ) : OpResult × List Registro :=
  match getDoc store calificacion_id with
  | none => ({ success := false, message := "Calificación no encontrada" }, store)
  | some doc =>
      if rol ≠ "administrador" ∧ doc.data.esLocal = false then
        ({ success := false,
           message := "No se puede eliminar una calificación de bolsa" }, store)
      else if rol ≠ "administrador" ∧ doc.data.propietarioRegistroId ≠ usuario_id then
        ({ success := false,
           message := "No tiene permisos para eliminar esta calificación" }, store)
      else
        ({ success := true, message := "Calificación eliminada exitosamente" },
         store.map (fun r =>
           if r._id = calificacion_id then
             ⟨r._id, { r.data with activo := false, fechaEliminacion := some now }⟩
           else r))

/-! ### CargaMasivaService (src/services/massiveLoadService.py) -/

/-- A DataFrame row handed to `import_data`. `fecha_declaracion` is the
already-validated `Timestamp` rendered through `strftime("%Y-%m-%d")`;
the numeric cells keep their raw shape (`FVal`) because
`prepare_dato_tributario` runs `float(...)` on each of them and a
malformed cell raises there. `factores i` is the cell of column
`f"factor_{i}"`. -/
structure Row where
  cliente_rut : String
  fecha_declaracion : String
  tipo_impuesto : String
  pais : String
  monto_declarado : FVal
  factores : ℕ → FVal

/-- `CargaMasivaService.validate_cliente` (massiveLoadService.py lines
121-154): unlike the tax service's resolver, the query also filters
`rol == "cliente"`. Returns the `(cliente_id, error_message)` tuple. -/
def ml_validate_cliente (clientes : List Cliente) (rut : String) :
    Option String × Option String :=
  match (clientes.filter (fun c => c.rut = rut ∧ c.rol = "cliente")).head? with
  | some c => (some c.id, none)
  | none => (none, some ("Cliente con RUT " ++ rut ++ " no está registrado en el sistema"))

/-- Python truthiness test `not t` applied to a 2-tuple: a tuple is falsy
iff it is empty, and a pair always has two elements, so `not (a, b)` is
`False` for every `a`, `b`. -/
def pyNotPair (_ : α × β) : Bool := false

/-- The `float(...)` loop of `prepare_dato_tributario` over the columns
`factor_1 .. factor_{i+n-1}`: builds the factores dictionary in key
order, propagating the first coercion failure. -/
def prepFactores (cells : ℕ → FVal) : ℕ → ℕ → Except String (List (String × ℚ))
  | _, 0 => .ok []
  | i, n + 1 => do
      let v ← pyFloat (cells i)
      let rest ← prepFactores cells (i + 1) n
      .ok (("factor_" ++ toString i, v) :: rest)

/-- `prepare_dato_tributario` (massiveLoadService.py lines 156-191):
coerce the 19 factor cells and the declared amount, then build the
document dictionary with `esLocal = False` (authoritative) and
`activo = True`. A coercion failure is the exception the caller's
per-row `try` catches. -/
def prepare_dato_tributario (row : Row) (cliente_id : CId)
    (usuario_carga_id : String) (now : ℕ) : Except String RegData := do
  let factores ← prepFactores row.factores 1 19
  let monto ← pyFloat row.monto_declarado
  .ok { clienteId := cliente_id
        usuarioCargaId := usuario_carga_id
        propietarioRegistroId := usuario_carga_id
        fechaDeclaracion := row.fecha_declaracion
        montoDeclarado := monto
        tipoImpuesto := row.tipo_impuesto
        pais := row.pais
        factores := factores
        subsidiosAplicados := []
        esLocal := false
        fechaCreacion := now
        fechaModificacion := now
        activo := true }

/-- The predicate of `find_existing_dato_bolsa`'s query: same client,
date and tax type, and `esLocal == False` only — no `activo` filter. -/
def bolsaPred (cliente_id : CId) (fecha tipo : String) (r : Registro) : Bool :=
  r.data.clienteId = cliente_id ∧ r.data.fechaDeclaracion = fecha ∧
    r.data.tipoImpuesto = tipo ∧ r.data.esLocal = false

/-- `find_existing_dato_bolsa` (massiveLoadService.py lines 230-267): id
of the first authoritative match, `None` otherwise. -/
def find_existing_dato_bolsa (store : List Registro) (cliente_id : CId)
    (fecha tipo : String) : Option String :=
  ((store.filter (bolsaPred cliente_id fecha tipo)).head?).map (fun r => r._id)

/-- `document(existing_id).update(dato_tributario)`: the payload carries
every field except `fechaEliminacion`, so the merge replaces everything
else and keeps that one field of the existing document. -/
def applyDatoUpdate (store : List Registro) (id : String) (dato : RegData) :
    List Registro :=
  store.map (fun r =>
    if r._id = id then ⟨r._id, { dato with fechaEliminacion := r.data.fechaEliminacion }⟩
    else r)

/-- Mutable state of the `import_data` row loop: the store plus the
counters, the error list, the current row position (`idx` of the default
`RangeIndex`), and how many documents this call has created (used to
draw fresh ids from the environment's supply). -/
structure LoopSt where
  store : List Registro
  created : ℕ := 0
  updated : ℕ := 0
  errors : List String := []
  idx : ℕ := 0
  fresh_count : ℕ := 0
deriving DecidableEq

/-- Environment of an `import_data` call: the parties collection, the
current instant, the caller, and the store's id supply for created
documents (`freshIds k` is the id assigned to the `k`-th `add`). -/
structure ImportEnv where
  clientes : List Cliente
  now : ℕ
  usuario_carga_id : String
  freshIds : ℕ → String

/-- One iteration of the `import_data` loop (massiveLoadService.py lines
51-94): resolve the client — the guard `if not cliente_id` tests the
tuple itself, see `pyNotPair` — prepare the document, then upsert
against existing authoritative data; any per-row exception lands in
`errors` with the 1-based, header-offset row number, and the loop moves
on. -/
def import_row (env : ImportEnv) (st : LoopSt) (row : Row) : LoopSt :=
  let cliente_id := ml_validate_cliente env.clientes row.cliente_rut
  if pyNotPair cliente_id then
    { st with
        errors := st.errors ++ ["Fila " ++ toString (st.idx + 2) ++
          ": No se pudo obtener cliente con RUT " ++ row.cliente_rut]
        idx := st.idx + 1 }
  else
    match prepare_dato_tributario row (CId.pair cliente_id) env.usuario_carga_id env.now with
    | .error e =>
        { st with
            errors := st.errors ++ ["Fila " ++ toString (st.idx + 2) ++ ": " ++ e]
            idx := st.idx + 1 }
    | .ok dato =>
        match find_existing_dato_bolsa st.store (CId.pair cliente_id)
            row.fecha_declaracion row.tipo_impuesto with
        | some existing_id =>
            { st with
                store := applyDatoUpdate st.store existing_id dato
                updated := st.updated + 1
                idx := st.idx + 1 }
        | none =>
            { st with
                store := st.store ++ [⟨env.freshIds st.fresh_count, dato⟩]
                created := st.created + 1
                idx := st.idx + 1
                fresh_count := st.fresh_count + 1 }

/-- Result dictionary of `import_data`. -/
structure ImportResult where
  success : Bool
  created : ℕ
  updated : ℕ
  errors : List String
  total_processed : ℕ
deriving DecidableEq

/-- `import_data` (massiveLoadService.py lines 25-119): fold the row loop
over the DataFrame, then
`success = len(errors) == 0 or (created_count + updated_count) > 0`.
Returns the result dictionary and the store after the batch. -/
def import_data (env : ImportEnv) (store : List Registro) (rows : List Row) :
    ImportResult × List Registro :=
  let st := rows.foldl (import_row env) { store := store }
  ({ success := st.errors.length = 0 || st.created + st.updated > 0
     created := st.created
     updated := st.updated
     errors := st.errors
     total_processed := st.created + st.updated }, st.store)

/-- Firestore well-formedness of the id supply: distinct `add` calls
receive distinct ids, never colliding with ids already in the store. -/
def FreshOK (env : ImportEnv) (store : List Registro) : Prop :=
  Function.Injective env.freshIds ∧
    ∀ j, env.freshIds j ∉ store.map (fun r => r._id)

/-- Loop invariant of `import_data`: document ids stay pairwise distinct,
and every id either was in the initial store or was drawn from the
fresh-id supply below the current creation count. -/
def IdsInv (env : ImportEnv) (store₀ : List Registro) (st : LoopSt) : Prop :=
  (st.store.map (fun r => r._id)).Nodup ∧
    ∀ id ∈ st.store.map (fun r => r._id),
      id ∈ store₀.map (fun r => r._id) ∨ ∃ j < st.fresh_count, env.freshIds j = id

/-! ### Concrete fixtures (used by witness theorems) -/

/-- A registered client party. -/
def wCliente : Cliente := ⟨"c1", "11111111-1", "cliente"⟩

/-- An active authoritative ("bolsa") record for client `c1`,
2024-01-01, IVA. -/
def wBolsa : Registro :=
  ⟨"b1",
   { clienteId := CId.str "c1", usuarioCargaId := "u0",
     propietarioRegistroId := "u0", fechaDeclaracion := "2024-01-01",
     tipoImpuesto := "IVA", pais := "Chile", montoDeclarado := 500,
     factores := [], subsidiosAplicados := [], esLocal := false,
     fechaCreacion := 0, fechaModificacion := 0, activo := true }⟩

/-- A well-formed local creation request for the same
(client, date, tax type) key as `wBolsa`. -/
def wDatos : DatosCalif :=
  { cliente_id := "11111111-1", fecha_declaracion := "2024-01-01",
    tipo_impuesto := "IVA", pais := "Chile", monto_declarado := 100,
    factores := List.replicate 19 0, subsidios_aplicados := [] }

/-- Environment for the concrete `crear_calificacion` calls. -/
def wCrearEnv : CrearEnv :=
  { clientes := [wCliente], conflictRaises := false, now := 0, freshId := "n1" }

/-- The same environment with a conflict query that raises. -/
def wCrearEnvRaises : CrearEnv :=
  { clientes := [wCliente], conflictRaises := true, now := 0, freshId := "n1" }

/-- Two stored subsidies `A` and `B` of 10% each
(`valor_porcentual` is a fraction), every other id unresolved. -/
def wLookup : String → Option ℚ :=
  fun s => if s = "A" ∨ s = "B" then some (1/10) else none

/-- Every window entry a 10% value: sum 1.2, exceeding the bound. -/
def wFactors : ℕ → Option FVal :=
  fun i => if 8 ≤ i ∧ i ≤ 19 then some (.num (1/10)) else none

/-- Window entries summing to exactly 1.0 (the valid boundary). -/
def wFactorsBoundary : ℕ → Option FVal :=
  fun i => if 8 ≤ i ∧ i ≤ 17 then some (.num (1/10)) else none

/-- A non-numeric cell at factor 10, zeros before it. -/
def wFactorsBadType : ℕ → Option FVal :=
  fun i => if i = 10 then some (.nonnum "could not convert string to float: 'x'")
           else if 8 ≤ i ∧ i ≤ 19 then some (.num 0) else none

/-- An out-of-range cell at factor 9, zeros before it. -/
def wFactorsBadRange : ℕ → Option FVal :=
  fun i => if i = 9 then some (.num 2)
           else if 8 ≤ i ∧ i ≤ 19 then some (.num 0) else none

/-- A numerically well-formed import row whose RUT belongs to no
registered client. -/
def wRow : Row :=
  { cliente_rut := "99999999-9", fecha_declaracion := "2024-02-02",
    tipo_impuesto := "Renta", pais := "Chile",
    monto_declarado := .num 200, factores := fun _ => .num 0 }

/-- Environment for the concrete `import_data` calls. -/
def wImportEnv : ImportEnv :=
  { clientes := [wCliente], now := 7, usuario_carga_id := "u2",
    freshIds := fun k => "imp" ++ toString k }

/-- The document `prepare_dato_tributario` builds out of `wRow`: note
the `clienteId` field carrying the whole resolver tuple. -/
def wDatoImport : RegData :=
  { clienteId := CId.pair
      (none, some "Cliente con RUT 99999999-9 no está registrado en el sistema")
    usuarioCargaId := "u2", propietarioRegistroId := "u2"
    fechaDeclaracion := "2024-02-02", tipoImpuesto := "Renta", pais := "Chile"
    montoDeclarado := 200
    factores := (List.range 19).map (fun k => ("factor_" ++ toString (k + 1), (0 : ℚ)))
    subsidiosAplicados := [], esLocal := false
    fechaCreacion := 7, fechaModificacion := 7, activo := true }

/-- A malformed import row: the declared amount does not coerce. -/
def wRowBad : Row :=
  { cliente_rut := "99999999-9", fecha_declaracion := "2024-02-02",
    tipo_impuesto := "Renta", pais := "Chile",
    monto_declarado := .nonnum "could not convert string to float: 'abc'",
    factores := fun _ => .num 0 }

/-- A ten-row batch: nine well-formed rows around one malformed row. -/
def wRows : List Row :=
  [wRow, wRow, wRow, wRow, wRowBad, wRow, wRow, wRow, wRow, wRow]

/-- An id supply whose properties are provable concretely. -/
def wImportEnvN : ImportEnv :=
  { clientes := [wCliente], now := 7, usuario_carga_id := "u2",
    freshIds := fun k => String.mk (List.replicate (k + 1) 'n') }

/-- A LOCAL record sharing exactly the key the import row `wRow`
produces (client tuple, date, tax type). -/
def wLocal : Registro :=
  ⟨"loc1",
   { clienteId := CId.pair
       (none, some "Cliente con RUT 99999999-9 no está registrado en el sistema"),
     usuarioCargaId := "u9", propietarioRegistroId := "u9",
     fechaDeclaracion := "2024-02-02", tipoImpuesto := "Renta", pais := "Chile",
     montoDeclarado := 50, factores := [], subsidiosAplicados := [],
     esLocal := true, fechaCreacion := 1, fechaModificacion := 1, activo := true }⟩

/-! ### Helper lemmas -/

/-- A `limit(1)` query over a store containing a matching document
returns some first matching document. -/
theorem filter_head?_of_mem {α : Type} {p : α → Bool} {l : List α} {a : α}
    (ha : a ∈ l) (hp : p a = true) :
    ∃ b, (l.filter p).head? = some b ∧ b ∈ l ∧ p b = true := by
  have hmem : a ∈ l.filter p := List.mem_filter.mpr ⟨ha, hp⟩
  cases h : l.filter p with
  | nil => rw [h] at hmem; cases hmem
  | cons b t =>
      have hb : b ∈ l.filter p := by rw [h]; exact List.mem_cons_self b t
      have := List.mem_filter.mp hb
      exact ⟨b, by simp [h], this.1, this.2⟩

/-! ### Claims -/

/-- C1: through the local creation path, when an active authoritative
record already exists for the resolved client, declaration date and tax
type, `crear_calificacion` returns a conflict rejection
(`success = false`, `conflicto = true`, with a summary of the existing
official record) and the store is unchanged. -/
theorem crear_calificacion_conflict_rejects
    (env : CrearEnv) (store : List Registro) (datos : DatosCalif)
    (usuario_id cliente_id : String) (e : Option String)
    (hval : (validar_datos datos).1 = true)
    (hcli : tax_validate_cliente env.clientes datos.cliente_id = (some cliente_id, e))
    (hraise : env.conflictRaises = false)
    (hconf : ∃ r ∈ store,
      conflictoPred (CId.str cliente_id) datos.fecha_declaracion datos.tipo_impuesto r = true) :
    (crear_calificacion env store datos usuario_id).1.success = false ∧
    (crear_calificacion env store datos usuario_id).1.conflicto = true ∧
    (∃ r₀ ∈ store,
      conflictoPred (CId.str cliente_id) datos.fecha_declaracion datos.tipo_impuesto r₀ = true ∧
      (crear_calificacion env store datos usuario_id).1.dato_oficial =
        some (r₀._id, r₀.data.montoDeclarado, r₀.data.fechaDeclaracion)) ∧
    (crear_calificacion env store datos usuario_id).2 = store := by
  obtain ⟨r, hr, hpred⟩ := hconf
  obtain ⟨r₀, hhead, hr₀mem, hr₀pred⟩ := filter_head?_of_mem hr hpred
  rcases hvd : validar_datos datos with ⟨b, m⟩
  rw [hvd] at hval
  simp only at hval
  subst hval
  have hbuscar : buscar_conflicto_oficial store env.conflictRaises (CId.str cliente_id)
      datos.fecha_declaracion datos.tipo_impuesto = some r₀ := by
    rw [hraise]; simpa [buscar_conflicto_oficial] using hhead
  simp only [crear_calificacion, hvd, hcli, hbuscar]
  exact ⟨trivial, trivial, ⟨r₀, hr₀mem, hr₀pred, rfl⟩, trivial⟩

/-- Witness for C1: on the concrete store holding the active
authoritative record `wBolsa`, the valid local request `wDatos` is
rejected with a conflict and the store is unchanged. -/
theorem crear_calificacion_conflict_rejects_witness :
    (validar_datos wDatos).1 = true ∧
    (crear_calificacion wCrearEnv [wBolsa] wDatos "u1").1.success = false ∧
    (crear_calificacion wCrearEnv [wBolsa] wDatos "u1").1.conflicto = true ∧
    (∃ r₀ ∈ [wBolsa],
      conflictoPred (CId.str "c1") wDatos.fecha_declaracion wDatos.tipo_impuesto r₀ = true ∧
      (crear_calificacion wCrearEnv [wBolsa] wDatos "u1").1.dato_oficial =
        some (r₀._id, r₀.data.montoDeclarado, r₀.data.fechaDeclaracion)) ∧
    (crear_calificacion wCrearEnv [wBolsa] wDatos "u1").2 = [wBolsa] := by
  have hv : (validar_datos wDatos).1 = true := by
    norm_num [validar_datos, wDatos, validate_factor_sum, vfsLoop, pyFloat,
      List.replicate, List.range_succ]
    decide
  exact ⟨hv, crear_calificacion_conflict_rejects wCrearEnv [wBolsa] wDatos "u1" "c1" none
    hv (by decide) rfl ⟨wBolsa, by simp, by decide⟩⟩

/-- C3: for an authoritative record (`esLocal = false`) and any caller
whose role is not `administrador`, both `actualizar_calificacion` and
`eliminar_calificacion` reject (`success = false`) and leave the store
unchanged — no ownership hypothesis is needed: the `esLocal` check fires
before the owner check. -/
theorem nonadmin_authoritative_rejected
    (store : List Registro) (id : String) (datos : DatosCalif)
    (usuario_id rol : String) (now : ℕ) (r : Registro)
    (hdoc : getDoc store id = some r)
    (hbolsa : r.data.esLocal = false)
    (hrol : rol ≠ "administrador") :
    (actualizar_calificacion store id datos usuario_id rol now).1.success = false ∧
    (actualizar_calificacion store id datos usuario_id rol now).2 = store ∧
    (eliminar_calificacion store id usuario_id rol now).1.success = false ∧
    (eliminar_calificacion store id usuario_id rol now).2 = store := by
  simp [actualizar_calificacion, eliminar_calificacion, hdoc, hbolsa, hrol]

/-- Witness for C3: the caller `u0` owns `wBolsa`
(`propietarioRegistroId = "u0"`), yet as a non-administrator both
operations reject and the store is untouched. -/
theorem nonadmin_authoritative_rejected_witness :
    getDoc [wBolsa] "b1" = some wBolsa ∧
    wBolsa.data.esLocal = false ∧
    wBolsa.data.propietarioRegistroId = "u0" ∧
    (actualizar_calificacion [wBolsa] "b1" wDatos "u0" "analista_mercado" 5).1.success = false ∧
    (actualizar_calificacion [wBolsa] "b1" wDatos "u0" "analista_mercado" 5).2 = [wBolsa] ∧
    (eliminar_calificacion [wBolsa] "b1" "u0" "analista_mercado" 5).1.success = false ∧
    (eliminar_calificacion [wBolsa] "b1" "u0" "analista_mercado" 5).2 = [wBolsa] := by
  have h := nonadmin_authoritative_rejected [wBolsa] "b1" wDatos "u0" "analista_mercado" 5
    wBolsa (by decide) (by decide) (by decide)
  exact ⟨by decide, by decide, by decide, h.1, h.2.1, h.2.2.1, h.2.2.2⟩

/-- C9: the conflict check is fail-open. When the store query inside
`buscar_conflicto_oficial` raises, the function returns `none` — the
value that means "no conflict" — and `crear_calificacion` proceeds to
persist a new local record; no hypothesis excludes an actual conflict
sitting in the store. -/
theorem conflict_check_fail_open
    (env : CrearEnv) (store : List Registro) (datos : DatosCalif)
    (usuario_id cliente_id : String) (e : Option String)
    (hval : (validar_datos datos).1 = true)
    (hcli : tax_validate_cliente env.clientes datos.cliente_id = (some cliente_id, e))
    (hraise : env.conflictRaises = true) :
    buscar_conflicto_oficial store env.conflictRaises (CId.str cliente_id)
      datos.fecha_declaracion datos.tipo_impuesto = none ∧
    (crear_calificacion env store datos usuario_id).1.success = true ∧
    ∃ d : RegData, d.esLocal = true ∧ d.activo = true ∧
      (crear_calificacion env store datos usuario_id).2 = store ++ [⟨env.freshId, d⟩] := by
  rcases hvd : validar_datos datos with ⟨b, m⟩
  rw [hvd] at hval
  simp only at hval
  subst hval
  have hbuscar : buscar_conflicto_oficial store env.conflictRaises (CId.str cliente_id)
      datos.fecha_declaracion datos.tipo_impuesto = none := by
    simp [buscar_conflicto_oficial, hraise]
  refine ⟨hbuscar, ?_⟩
  simp only [crear_calificacion, hvd, hcli, hbuscar]
  exact ⟨trivial, _, rfl, rfl, rfl⟩

/-- Witness for C9: the store holds the active authoritative conflict
`wBolsa` for exactly the key of `wDatos`, yet with the query raising the
creation succeeds and appends a new local record. -/
theorem conflict_check_fail_open_witness :
    (validar_datos wDatos).1 = true ∧
    conflictoPred (CId.str "c1") wDatos.fecha_declaracion wDatos.tipo_impuesto wBolsa = true ∧
    buscar_conflicto_oficial [wBolsa] wCrearEnvRaises.conflictRaises (CId.str "c1")
      wDatos.fecha_declaracion wDatos.tipo_impuesto = none ∧
    (crear_calificacion wCrearEnvRaises [wBolsa] wDatos "u1").1.success = true ∧
    (∃ d : RegData, d.esLocal = true ∧ d.activo = true ∧
      (crear_calificacion wCrearEnvRaises [wBolsa] wDatos "u1").2 =
        [wBolsa] ++ [⟨wCrearEnvRaises.freshId, d⟩]) := by
  have hv : (validar_datos wDatos).1 = true := by
    norm_num [validar_datos, wDatos, validate_factor_sum, vfsLoop, pyFloat,
      List.replicate, List.range_succ]
    decide
  have h := conflict_check_fail_open wCrearEnvRaises [wBolsa] wDatos "u1" "c1" none
    hv (by decide) rfl
  exact ⟨hv, by decide, h.1, h.2.1, h.2.2⟩

/-- C6: the subsidy cascade is applied multiplicatively in list order —
each resolved subsidy multiplies the running amount by `(1 - vp)` with a
two-decimal rounding after each step, unresolved ids are skipped without
failing — and on two 10% subsidies over 1000 it yields 810, not the
800 of summed percentages. -/
theorem subsidy_cascade_order_sensitive :
    (∀ (lookup : String → Option ℚ) (m : ℚ) (sid : String) (vp : ℚ) (rest : List String),
      lookup sid = some vp →
      update_preview_monto lookup m (sid :: rest) =
        update_preview_monto lookup (quantize2 (m * (1 - vp))) rest) ∧
    (∀ (lookup : String → Option ℚ) (m : ℚ) (sid : String) (rest : List String),
      lookup sid = none →
      update_preview_monto lookup m (sid :: rest) = update_preview_monto lookup m rest) ∧
    (∀ (lookup : String → Option ℚ) (m : ℚ) (ids : List String),
      update_preview_monto lookup m ids =
        update_preview_monto lookup m (ids.filter (fun s => (lookup s).isSome))) ∧
    update_preview_monto wLookup 1000 ["A", "B"] = 810 ∧
    update_preview_monto wLookup 1000 ["A", "B"] ≠ 1000 * (1 - (1/10 + 1/10)) := by
  refine ⟨?step, ?skip, ?filter, ?conc, ?ne⟩
  case step =>
    intro lookup m sid vp rest h
    simp [update_preview_monto, cascadeStep, h]
  case skip =>
    intro lookup m sid rest h
    simp [update_preview_monto, cascadeStep, h]
  case filter =>
    intro lookup m ids
    induction ids generalizing m with
    | nil => rfl
    | cons s rest ih =>
        cases h : lookup s with
        | none => simp [update_preview_monto, cascadeStep, h] at ih ⊢; exact ih m
        | some vp => simp [update_preview_monto, cascadeStep, h] at ih ⊢; exact ih _
  case conc =>
    norm_num [update_preview_monto, cascadeStep, quantize2, roundHalfEven, wLookup]
  case ne =>
    norm_num [update_preview_monto, cascadeStep, quantize2, roundHalfEven, wLookup]

/-- Witness for C6: the step and skip clauses applied at concrete
inputs, plus the concrete cascade value. -/
theorem subsidy_cascade_order_sensitive_witness :
    wLookup "A" = some (1/10) ∧
    wLookup "zzz" = none ∧
    update_preview_monto wLookup 1000 ["A", "B"] =
      update_preview_monto wLookup (quantize2 (1000 * (1 - 1/10))) ["B"] ∧
    update_preview_monto wLookup 900 ["zzz", "B"] = update_preview_monto wLookup 900 ["B"] ∧
    update_preview_monto wLookup 1000 ["A", "B"] = 810 := by
  have hA : wLookup "A" = some (1/10) := by simp [wLookup]
  have hz : wLookup "zzz" = none := by simp [wLookup]
  exact ⟨hA, hz,
    subsidy_cascade_order_sensitive.1 wLookup 1000 "A" (1/10) ["B"] hA,
    subsidy_cascade_order_sensitive.2.1 wLookup 900 "zzz" ["B"] hz,
    subsidy_cascade_order_sensitive.2.2.2.1⟩

/-- On a stretch of well-formed entries the loop runs to the end and
reports the accumulated sum. -/
theorem vfsLoop_all_good (f : ℕ → Option FVal) (s e : ℕ) (n : ℕ) :
    ∀ (i : ℕ) (total : ℚ), (∀ j, i ≤ j → j < i + n → GoodAt f j) →
    vfsLoop f s e i n total =
      (if total + windowSum f i n > 1 then
        (false, "La suma de los factores " ++ toString s ++ " al " ++ toString e ++
          " no puede superar 1.0 (actual: " ++ fmt2 (total + windowSum f i n) ++ ")")
      else (true, "Suma de factores válida: " ++ fmt2 (total + windowSum f i n))) := by
  induction n with
  | zero => intro i total h; simp [vfsLoop, windowSum]
  | succ n ih =>
      intro i total h
      cases hfi : f i with
      | none =>
          have := ih (i + 1) total (fun j h1 h2 => h j (by omega) (by omega))
          simp [vfsLoop, windowSum, hfi, this]
      | some v =>
          obtain ⟨q, rfl, hq0, hq1⟩ := h i (le_refl i) (by omega) v hfi
          have hrange : ¬ (q < 0 ∨ q > 1) := by
            push_neg
            exact ⟨hq0, hq1⟩
          have := ih (i + 1) (total + q) (fun j h1 h2 => h j (by omega) (by omega))
          simp [vfsLoop, windowSum, hfi, pyFloat, hrange, this, add_assoc]

/-- If the first offending entry in the window is non-numeric, the loop
reports the type failure for that index. -/
theorem vfsLoop_first_nonnum (f : ℕ → Option FVal) (s e : ℕ) (n : ℕ) :
    ∀ (i : ℕ) (total : ℚ) (k : ℕ) (msg : String), i ≤ k → k < i + n →
    f k = some (.nonnum msg) →
    (∀ j, i ≤ j → j < k → GoodAt f j) →
    vfsLoop f s e i n total =
      (false, "El factor_" ++ toString k ++ " debe ser un valor numérico") := by
  induction n with
  | zero => intro i total k msg h1 h2; omega
  | succ n ih =>
      intro i total k msg h1 h2 hk hgood
      rcases Nat.eq_or_lt_of_le h1 with rfl | hik
      · simp [vfsLoop, hk, pyFloat]
      · cases hfi : f i with
        | none =>
            have := ih (i + 1) total k msg (by omega) (by omega) hk
              (fun j ha hb => hgood j (by omega) hb)
            simp [vfsLoop, hfi, this]
        | some v =>
            obtain ⟨q, rfl, hq0, hq1⟩ := hgood i (le_refl i) hik v hfi
            have hrange : ¬ (q < 0 ∨ q > 1) := by push_neg; exact ⟨hq0, hq1⟩
            have := ih (i + 1) (total + q) k msg (by omega) (by omega) hk
              (fun j ha hb => hgood j (by omega) hb)
            simp [vfsLoop, hfi, pyFloat, hrange, this]

/-- If the first offending entry in the window is numeric but out of
`[0,1]`, the loop reports the range failure for that index. -/
theorem vfsLoop_first_range (f : ℕ → Option FVal) (s e : ℕ) (n : ℕ) :
    ∀ (i : ℕ) (total : ℚ) (k : ℕ) (q : ℚ), i ≤ k → k < i + n →
    f k = some (.num q) → (q < 0 ∨ 1 < q) →
    (∀ j, i ≤ j → j < k → GoodAt f j) →
    vfsLoop f s e i n total =
      (false, "El factor_" ++ toString k ++ " debe estar entre 0 y 1") := by
  induction n with
  | zero => intro i total k q h1 h2; omega
  | succ n ih =>
      intro i total k q h1 h2 hk hq hgood
      rcases Nat.eq_or_lt_of_le h1 with rfl | hik
      · have : q < 0 ∨ q > 1 := hq
        simp [vfsLoop, hk, pyFloat, this]
      · cases hfi : f i with
        | none =>
            have := ih (i + 1) total k q (by omega) (by omega) hk hq
              (fun j ha hb => hgood j (by omega) hb)
            simp [vfsLoop, hfi, this]
        | some v =>
            obtain ⟨p, rfl, hp0, hp1⟩ := hgood i (le_refl i) hik v hfi
            have hrange : ¬ (p < 0 ∨ p > 1) := by push_neg; exact ⟨hp0, hp1⟩
            have := ih (i + 1) (total + p) k q (by omega) (by omega) hk hq
              (fun j ha hb => hgood j (by omega) hb)
            simp [vfsLoop, hfi, pyFloat, hrange, this]

/-- C5: over the window of factors 8..19, when every present entry is
numeric and in `[0,1]`, `validate_factor_sum` succeeds with a message
carrying the window sum iff the sum is at most 1.0 (sum = 1.0 is valid)
and fails with the sum-exceeded message iff the sum is strictly greater;
the first non-numeric entry yields the type failure and the first
out-of-range entry yields the range failure, each naming the factor. -/
theorem validate_factor_sum_window (factors : ℕ → Option FVal) :
    ((∀ j, 8 ≤ j → j ≤ 19 → GoodAt factors j) →
      (validate_factor_sum factors 8 19 =
        if windowSum factors 8 12 > 1 then
          (false, "La suma de los factores 8 al 19 no puede superar 1.0 (actual: " ++
            fmt2 (windowSum factors 8 12) ++ ")")
        else (true, "Suma de factores válida: " ++ fmt2 (windowSum factors 8 12))) ∧
      ((validate_factor_sum factors 8 19).1 = false ↔ 1 < windowSum factors 8 12)) ∧
    (∀ i msg, 8 ≤ i → i ≤ 19 → factors i = some (.nonnum msg) →
      (∀ j, 8 ≤ j → j < i → GoodAt factors j) →
      validate_factor_sum factors 8 19 =
        (false, "El factor_" ++ toString i ++ " debe ser un valor numérico")) ∧
    (∀ i q, 8 ≤ i → i ≤ 19 → factors i = some (.num q) → (q < 0 ∨ 1 < q) →
      (∀ j, 8 ≤ j → j < i → GoodAt factors j) →
      validate_factor_sum factors 8 19 =
        (false, "El factor_" ++ toString i ++ " debe estar entre 0 y 1")) := by
  refine ⟨fun hgood => ?_, fun i msg h1 h2 hk hgood => ?_, fun i q h1 h2 hk hq hgood => ?_⟩
  · have h := vfsLoop_all_good factors 8 19 12 8 0
      (fun j ha hb => hgood j ha (by omega))
    rw [zero_add] at h
    constructor
    · exact h
    · rw [show validate_factor_sum factors 8 19 = vfsLoop factors 8 19 8 12 0 from rfl, h]
      split
      · next hgt => simpa using hgt
      · next hle => simpa using le_of_not_lt (by simpa using hle)
  · exact vfsLoop_first_nonnum factors 8 19 12 8 0 i msg h1 (by omega) hk
      (fun j ha hb => hgood j ha hb)
  · exact vfsLoop_first_range factors 8 19 12 8 0 i q h1 (by omega) hk hq
      (fun j ha hb => hgood j ha hb)

/-- Witness for C5: the 1.2-sum window fails, the 1.0-sum boundary
window succeeds with its sum in the message, and the type and range
offenders are named. -/
theorem validate_factor_sum_window_witness :
    validate_factor_sum wFactors 8 19 =
      (false, "La suma de los factores 8 al 19 no puede superar 1.0 (actual: " ++
        fmt2 (windowSum wFactors 8 12) ++ ")") ∧
    validate_factor_sum wFactorsBoundary 8 19 =
      (true, "Suma de factores válida: " ++ fmt2 (windowSum wFactorsBoundary 8 12)) ∧
    validate_factor_sum wFactorsBadType 8 19 =
      (false, "El factor_" ++ toString 10 ++ " debe ser un valor numérico") ∧
    validate_factor_sum wFactorsBadRange 8 19 =
      (false, "El factor_" ++ toString 9 ++ " debe estar entre 0 y 1") := by
  have hg1 : ∀ j, 8 ≤ j → j ≤ 19 → GoodAt wFactors j := by
    intro j h1 h2 v hv
    simp only [wFactors] at hv
    rw [if_pos ⟨h1, h2⟩] at hv
    exact ⟨1/10, by simpa using hv.symm, by norm_num⟩
  have hg2 : ∀ j, 8 ≤ j → j ≤ 19 → GoodAt wFactorsBoundary j := by
    intro j h1 h2 v hv
    simp only [wFactorsBoundary] at hv
    by_cases hj : 8 ≤ j ∧ j ≤ 17
    · rw [if_pos hj] at hv
      exact ⟨1/10, by simpa using hv.symm, by norm_num⟩
    · rw [if_neg hj] at hv
      cases hv
  have hs1 : windowSum wFactors 8 12 > 1 := by
    norm_num [windowSum, wFactors]
  have hs2 : ¬ windowSum wFactorsBoundary 8 12 > 1 := by
    norm_num [windowSum, wFactorsBoundary]
  refine ⟨?_, ?_, ?_, ?_⟩
  · rw [((validate_factor_sum_window wFactors).1 hg1).1, if_pos hs1]
  · rw [((validate_factor_sum_window wFactorsBoundary).1 hg2).1, if_neg hs2]
  · refine (validate_factor_sum_window wFactorsBadType).2.1 10
      "could not convert string to float: 'x'" (by norm_num) (by norm_num) (by simp [wFactorsBadType]) ?_
    intro j h1 h2 v hv
    simp only [wFactorsBadType] at hv
    rw [if_neg (by omega), if_pos ⟨h1, by omega⟩] at hv
    exact ⟨0, by simpa using hv.symm, by norm_num⟩
  · refine (validate_factor_sum_window wFactorsBadRange).2.2 9 2
      (by norm_num) (by norm_num) (by simp [wFactorsBadRange]) (by norm_num) ?_
    intro j h1 h2 v hv
    simp only [wFactorsBadRange] at hv
    rw [if_neg (by omega), if_pos ⟨h1, by omega⟩] at hv
    exact ⟨0, by simpa using hv.symm, by norm_num⟩

/-- C7: for any identifier whose cleaned body is 7-8 digits,
`validate_rut` accepts iff the supplied check character equals the
modulus-11 check character computed by `calculate_rut_dv`; in
particular the check digit of body `12345678` is `5` and
`12345678-5` validates. -/
theorem validate_rut_mod11 (rut : List Char)
    (hdig : (clean_rut rut).dropLast.all Char.isDigit = true)
    (hlen7 : 7 ≤ (clean_rut rut).dropLast.length)
    (hlen8 : (clean_rut rut).dropLast.length ≤ 8) :
    ((validate_rut rut).1 = true ↔
      [(clean_rut rut).getLastD ' '] = calculate_rut_dv ((clean_rut rut).dropLast)) ∧
    calculate_rut_dv "12345678".toList = ['5'] ∧
    validate_rut "12345678-5".toList = (true, "RUT válido") := by
  have hldrop : (clean_rut rut).dropLast.length = (clean_rut rut).length - 1 :=
    List.length_dropLast (clean_rut rut)
  have hclen : 2 ≤ (clean_rut rut).length := by omega
  have hrne : rut.isEmpty = false := by
    cases rut with
    | nil => simp [clean_rut] at hclen
    | cons a l => rfl
  refine ⟨?_, by decide, by decide⟩
  rw [validate_rut, hrne]
  simp only [Bool.false_eq_true, if_false]
  rw [validate_cleaned]
  rw [if_neg (by omega)]
  have hpy : pyIsdigit ((clean_rut rut).dropLast) = true := by
    have : (clean_rut rut).dropLast.isEmpty = false := by
      cases h : (clean_rut rut).dropLast with
      | nil => rw [h] at hlen7; simp at hlen7
      | cons a l => rfl
    simp [pyIsdigit, hdig, this]
  rw [if_neg (by simp [hpy])]
  rw [if_neg (by omega)]
  split
  · next hne2 =>
      rw [List.getLastD_eq_getLast?] at hne2
      simp [hne2]
  · next heq =>
      rw [List.getLastD_eq_getLast?] at heq
      simp at heq
      simp [heq, List.getLastD_eq_getLast?]

/-- Witness for C7: the fixture identifier `12345678-5` has a 7-8 digit
body, its computed check character is `5`, and validation accepts. -/
theorem validate_rut_mod11_witness :
    (clean_rut "12345678-5".toList).dropLast.all Char.isDigit = true ∧
    7 ≤ (clean_rut "12345678-5".toList).dropLast.length ∧
    (clean_rut "12345678-5".toList).dropLast.length ≤ 8 ∧
    (validate_rut "12345678-5".toList).1 = true := by
  refine ⟨by decide, by decide, by decide, ?_⟩
  exact (validate_rut_mod11 "12345678-5".toList (by decide) (by decide) (by decide)).1.mpr
    (by decide)

/-- C10: `validate_cliente` always returns a 2-tuple — `(id, None)` or
`(None, message)` — the guard `if not cliente_id` tests that tuple,
which is always truthy, so the missing-client rejection branch of
`import_data` is unreachable: a row with a parseable payload is always
created or updated (never rejected at client resolution), and the
persisted `clienteId` is the tuple itself. -/
theorem import_client_guard_unreachable :
    (∀ (clientes : List Cliente) (rut : String),
      (∃ i, ml_validate_cliente clientes rut = (some i, none)) ∨
      (∃ m, ml_validate_cliente clientes rut = (none, some m))) ∧
    (∀ (clientes : List Cliente) (rut : String),
      pyNotPair (ml_validate_cliente clientes rut) = false) ∧
    (∀ (env : ImportEnv) (st : LoopSt) (row : Row) (dato : RegData),
      prepare_dato_tributario row
          (CId.pair (ml_validate_cliente env.clientes row.cliente_rut))
          env.usuario_carga_id env.now = .ok dato →
      (import_row env st row).errors = st.errors ∧
      (import_row env st row).created + (import_row env st row).updated =
        st.created + st.updated + 1 ∧
      dato.clienteId = CId.pair (ml_validate_cliente env.clientes row.cliente_rut) ∧
      (find_existing_dato_bolsa st.store
          (CId.pair (ml_validate_cliente env.clientes row.cliente_rut))
          row.fecha_declaracion row.tipo_impuesto = none →
        (import_row env st row).store =
          st.store ++ [⟨env.freshIds st.fresh_count, dato⟩])) := by
  refine ⟨fun clientes rut => ?_, fun _ _ => rfl, fun env st row dato hprep => ?_⟩
  · rw [ml_validate_cliente]
    cases (clientes.filter (fun c => c.rut = rut ∧ c.rol = "cliente")).head? with
    | none => exact Or.inr ⟨_, rfl⟩
    | some c => exact Or.inl ⟨c.id, rfl⟩
  · have hcid : dato.clienteId =
        CId.pair (ml_validate_cliente env.clientes row.cliente_rut) := by
      rw [prepare_dato_tributario] at hprep
      cases hf : prepFactores row.factores 1 19 with
      | error e => rw [hf] at hprep; simp [Bind.bind, Except.bind] at hprep
      | ok fs =>
          cases hm : pyFloat row.monto_declarado with
          | error e => rw [hf, hm] at hprep; simp [Bind.bind, Except.bind] at hprep
          | ok q =>
              rw [hf, hm] at hprep
              simp [Bind.bind, Except.bind] at hprep
              rw [← hprep]
    refine ⟨?_, ?_, hcid, ?_⟩
    · simp only [import_row, pyNotPair, Bool.false_eq_true, if_false, hprep]
      cases hfind : find_existing_dato_bolsa st.store
          (CId.pair (ml_validate_cliente env.clientes row.cliente_rut))
          row.fecha_declaracion row.tipo_impuesto <;> simp
    · simp only [import_row, pyNotPair, Bool.false_eq_true, if_false, hprep]
      cases hfind : find_existing_dato_bolsa st.store
          (CId.pair (ml_validate_cliente env.clientes row.cliente_rut))
          row.fecha_declaracion row.tipo_impuesto <;> simp <;> omega
    · intro hfind
      simp only [import_row, pyNotPair, Bool.false_eq_true, if_false, hprep, hfind]

/-- Witness for C10: on an unregistered RUT the resolver returns the
`(None, message)` tuple, the row is still created (no error), and the
created document's `clienteId` is that tuple. -/
theorem import_client_guard_unreachable_witness :
    ml_validate_cliente wImportEnv.clientes wRow.cliente_rut =
      (none, some "Cliente con RUT 99999999-9 no está registrado en el sistema") ∧
    (import_row wImportEnv { store := [] } wRow).errors = [] ∧
    (import_row wImportEnv { store := [] } wRow).created +
      (import_row wImportEnv { store := [] } wRow).updated = 1 ∧
    wDatoImport.clienteId =
      CId.pair (ml_validate_cliente wImportEnv.clientes wRow.cliente_rut) ∧
    (import_row wImportEnv { store := [] } wRow).store = [⟨"imp0", wDatoImport⟩] := by
  have hprep : prepare_dato_tributario wRow
      (CId.pair (ml_validate_cliente wImportEnv.clientes wRow.cliente_rut))
      wImportEnv.usuario_carga_id wImportEnv.now = .ok wDatoImport := by rfl
  have h := import_client_guard_unreachable.2.2 wImportEnv { store := [] } wRow
    wDatoImport hprep
  refine ⟨by decide, h.1, ?_, h.2.2.1, ?_⟩
  · simpa using h.2.1
  · rw [h.2.2.2 rfl]
    decide

/-- Every branch of the row loop advances to the next row. -/
theorem import_row_idx (env : ImportEnv) (st : LoopSt) (row : Row) :
    (import_row env st row).idx = st.idx + 1 := by
  simp only [import_row, pyNotPair, Bool.false_eq_true, if_false]
  cases prepare_dato_tributario row
      (CId.pair (ml_validate_cliente env.clientes row.cliente_rut))
      env.usuario_carga_id env.now with
  | error e => rfl
  | ok dato =>
      cases find_existing_dato_bolsa st.store
          (CId.pair (ml_validate_cliente env.clientes row.cliente_rut))
          row.fecha_declaracion row.tipo_impuesto <;> rfl

/-- The row loop visits every row: the final position is the start
position plus the number of rows, whatever happened per row. -/
theorem import_foldl_idx (env : ImportEnv) (rows : List Row) :
    ∀ st : LoopSt, (rows.foldl (import_row env) st).idx = st.idx + rows.length := by
  induction rows with
  | nil => intro st; simp
  | cons r rest ih =>
      intro st
      simp only [List.foldl_cons, List.length_cons, ih, import_row_idx]
      omega

/-- C4: on the concrete ten-row batch with one malformed row,
`import_data` reports `created + updated = 9`, one error, and overall
success; in general `success` is true iff there were zero errors or at
least one row was created or updated, a failing row only appends its
error message and moves on, and the loop always reaches the end of the
batch. -/
theorem import_partial_success :
    ((import_data wImportEnv [] wRows).1.created +
        (import_data wImportEnv [] wRows).1.updated = 9 ∧
      (import_data wImportEnv [] wRows).1.errors.length = 1 ∧
      (import_data wImportEnv [] wRows).1.success = true) ∧
    (∀ (env : ImportEnv) (store : List Registro) (rows : List Row),
      (import_data env store rows).1.success = true ↔
        ((import_data env store rows).1.errors.length = 0 ∨
          0 < (import_data env store rows).1.created +
            (import_data env store rows).1.updated)) ∧
    (∀ (env : ImportEnv) (st : LoopSt) (row : Row) (e : String),
      prepare_dato_tributario row
          (CId.pair (ml_validate_cliente env.clientes row.cliente_rut))
          env.usuario_carga_id env.now = .error e →
      import_row env st row =
        { st with
            errors := st.errors ++ ["Fila " ++ toString (st.idx + 2) ++ ": " ++ e]
            idx := st.idx + 1 }) ∧
    (∀ (env : ImportEnv) (store : List Registro) (rows : List Row),
      (rows.foldl (import_row env) { store := store }).idx = rows.length) := by
  refine ⟨⟨by decide, by decide, by decide⟩, fun env store rows => ?_,
    fun env st row e hprep => ?_, fun env store rows => ?_⟩
  · simp [import_data]
  · simp only [import_row, pyNotPair, Bool.false_eq_true, if_false, hprep]
  · simpa using import_foldl_idx env rows { store := store }

/-- Witness for C4: the failing-row clause applied to the concrete
malformed row, plus the loop-compleness clause on the concrete batch. -/
theorem import_partial_success_witness :
    prepare_dato_tributario wRowBad
        (CId.pair (ml_validate_cliente wImportEnv.clientes wRowBad.cliente_rut))
        wImportEnv.usuario_carga_id wImportEnv.now =
      .error "could not convert string to float: 'abc'" ∧
    import_row wImportEnv { store := [] } wRowBad =
      { store := ([] : List Registro),
        errors := ["Fila " ++ toString 2 ++ ": could not convert string to float: 'abc'"]
        idx := 1 } ∧
    ((import_data wImportEnv [] wRows).1.success = true ↔
      ((import_data wImportEnv [] wRows).1.errors.length = 0 ∨
        0 < (import_data wImportEnv [] wRows).1.created +
          (import_data wImportEnv [] wRows).1.updated)) ∧
    (wRows.foldl (import_row wImportEnv) { store := [] }).idx = wRows.length := by
  have hp : prepare_dato_tributario wRowBad
      (CId.pair (ml_validate_cliente wImportEnv.clientes wRowBad.cliente_rut))
      wImportEnv.usuario_carga_id wImportEnv.now =
      .error "could not convert string to float: 'abc'" := by rfl
  refine ⟨hp, ?_, import_partial_success.2.1 wImportEnv [] wRows,
    import_partial_success.2.2.2 wImportEnv [] wRows⟩
  rw [import_partial_success.2.2.1 wImportEnv { store := [] } wRowBad
    "could not convert string to float: 'abc'" hp]
  rfl

/-- A successfully prepared bulk-import document is authoritative. -/
theorem prepare_ok_esLocal (row : Row) (cid : CId) (u : String) (now : ℕ)
    (dato : RegData) (h : prepare_dato_tributario row cid u now = .ok dato) :
    dato.esLocal = false := by
  rw [prepare_dato_tributario] at h
  cases hf : prepFactores row.factores 1 19 with
  | error e => rw [hf] at h; simp [Bind.bind, Except.bind] at h
  | ok fs =>
      cases hm : pyFloat row.monto_declarado with
      | error e => rw [hf, hm] at h; simp [Bind.bind, Except.bind] at h
      | ok q =>
          rw [hf, hm] at h
          simp [Bind.bind, Except.bind] at h
          rw [← h]

/-- The upsert lookup only ever returns the id of an authoritative
record of the store. -/
theorem find_existing_scope (store : List Registro) (cid : CId) (fecha tipo : String)
    (eid : String) (h : find_existing_dato_bolsa store cid fecha tipo = some eid) :
    ∃ r ∈ store, r._id = eid ∧ r.data.esLocal = false ∧ bolsaPred cid fecha tipo r = true := by
  rw [find_existing_dato_bolsa] at h
  cases hh : (store.filter (bolsaPred cid fecha tipo)).head? with
  | none => rw [hh] at h; cases h
  | some r =>
      rw [hh] at h
      have hr : r ∈ store.filter (bolsaPred cid fecha tipo) :=
        List.mem_of_mem_head? (by simp [hh])
      obtain ⟨hmem, hpred⟩ := List.mem_filter.mp hr
      have hloc : r.data.esLocal = false := by
        have := of_decide_eq_true hpred
        tauto
      cases h
      exact ⟨r, hmem, rfl, hloc, hpred⟩

/-- The merge-update rewrites only the targeted document and keeps every
document id. -/
theorem applyDatoUpdate_map_id (store : List Registro) (eid : String) (dato : RegData) :
    (applyDatoUpdate store eid dato).map (fun r => r._id) =
      store.map (fun r => r._id) := by
  induction store with
  | nil => rfl
  | cons r rest ih =>
      by_cases hid : r._id = eid <;>
        simp [applyDatoUpdate, hid] <;>
        simpa [applyDatoUpdate] using ih

/-- Updating an authoritative document with an authoritative payload
leaves the sublist of local records untouched. -/
theorem applyDatoUpdate_filter_esLocal (store : List Registro) (eid : String)
    (dato : RegData) (hd : dato.esLocal = false)
    (h : ∀ r ∈ store, r._id = eid → r.data.esLocal = false) :
    (applyDatoUpdate store eid dato).filter (fun r => r.data.esLocal) =
      store.filter (fun r => r.data.esLocal) := by
  induction store with
  | nil => rfl
  | cons r rest ih =>
      have ih2 := ih (fun x hx hxe => h x (List.mem_cons_of_mem r hx) hxe)
      by_cases hid : r._id = eid
      · have hl : r.data.esLocal = false := h r (List.mem_cons_self r rest) hid
        simp [applyDatoUpdate, hid, List.filter_cons, hl, hd]
        simpa [applyDatoUpdate, hd] using ih2
      · simp only [applyDatoUpdate, List.map_cons, if_neg hid, List.filter_cons]
        cases hl : r.data.esLocal <;>
          simp [hl] <;> simpa [applyDatoUpdate, hd] using ih2

/-- One bulk-import row never changes the sublist of local records,
whatever the row contains, provided document ids are distinct. -/
theorem import_row_filter_esLocal (env : ImportEnv) (st : LoopSt) (row : Row)
    (hnd : (st.store.map (fun r => r._id)).Nodup) :
    (import_row env st row).store.filter (fun r => r.data.esLocal) =
      st.store.filter (fun r => r.data.esLocal) := by
  simp only [import_row, pyNotPair, Bool.false_eq_true, if_false]
  cases hp : prepare_dato_tributario row
      (CId.pair (ml_validate_cliente env.clientes row.cliente_rut))
      env.usuario_carga_id env.now with
  | error e => rfl
  | ok dato =>
      have hd := prepare_ok_esLocal row _ env.usuario_carga_id env.now dato hp
      cases hfind : find_existing_dato_bolsa st.store
          (CId.pair (ml_validate_cliente env.clientes row.cliente_rut))
          row.fecha_declaracion row.tipo_impuesto with
      | some eid =>
          obtain ⟨r₀, hmem, hid, hloc, _⟩ := find_existing_scope st.store _ _ _ eid hfind
          simp only
          apply applyDatoUpdate_filter_esLocal st.store eid dato hd
          intro r hr hre
          have : r = r₀ := List.inj_on_of_nodup_map hnd hr hmem (by rw [hre, hid])
          rw [this]
          exact hloc
      | none =>
          simp [List.filter_append, hd]

/-- One bulk-import row preserves the id invariant. -/
theorem import_row_ids_inv (env : ImportEnv) (store₀ : List Registro)
    (hfresh : FreshOK env store₀) (st : LoopSt) (row : Row)
    (hinv : IdsInv env store₀ st) : IdsInv env store₀ (import_row env st row) := by
  obtain ⟨hnd, hmem⟩ := hinv
  simp only [import_row, pyNotPair, Bool.false_eq_true, if_false]
  cases hp : prepare_dato_tributario row
      (CId.pair (ml_validate_cliente env.clientes row.cliente_rut))
      env.usuario_carga_id env.now with
  | error e => exact ⟨hnd, hmem⟩
  | ok dato =>
      cases hfind : find_existing_dato_bolsa st.store
          (CId.pair (ml_validate_cliente env.clientes row.cliente_rut))
          row.fecha_declaracion row.tipo_impuesto with
      | some eid =>
          refine ⟨?_, ?_⟩
          · rw [applyDatoUpdate_map_id]; exact hnd
          · intro id hid
            rw [applyDatoUpdate_map_id] at hid
            exact hmem id hid
      | none =>
          dsimp only [IdsInv]
          have hnotin : env.freshIds st.fresh_count ∉ st.store.map (fun r => r._id) := by
            intro hin
            rcases hmem _ hin with h0 | ⟨j, hj, hje⟩
            · exact hfresh.2 st.fresh_count h0
            · have : j = st.fresh_count := hfresh.1 hje
              omega
          refine ⟨?_, ?_⟩
          · simp only [List.map_append, List.map_cons, List.map_nil]
            rw [List.nodup_append]
            exact ⟨hnd, List.nodup_singleton _, by simpa using fun h => hnotin h⟩
          · intro id hid
            simp only [List.map_append, List.map_cons, List.map_nil,
              List.mem_append, List.mem_singleton] at hid
            rcases hid with h0 | rfl
            · rcases hmem id h0 with h1 | ⟨j, hj, hje⟩
              · exact Or.inl h1
              · exact Or.inr ⟨j, by omega, hje⟩
            · exact Or.inr ⟨st.fresh_count, by omega, rfl⟩

/-- The whole batch preserves both local records and the id invariant. -/
theorem import_fold_local (env : ImportEnv) (store₀ : List Registro)
    (hfresh : FreshOK env store₀) (rows : List Row) :
    ∀ st : LoopSt, IdsInv env store₀ st →
      ((rows.foldl (import_row env) st).store.filter (fun r => r.data.esLocal) =
        st.store.filter (fun r => r.data.esLocal)) ∧
      IdsInv env store₀ (rows.foldl (import_row env) st) := by
  induction rows with
  | nil => exact fun st h => ⟨rfl, h⟩
  | cons r rest ih =>
      intro st h
      have h1 := import_row_filter_esLocal env st r h.1
      have h2 := import_row_ids_inv env store₀ hfresh st r h
      obtain ⟨ha, hb⟩ := ih (import_row env st r) h2
      exact ⟨by rw [List.foldl_cons, ha, h1], hb⟩

/-- C2: the bulk-import upsert lookup matches only authoritative
records, every document it prepares is authoritative, and consequently
`import_data` never creates or mutates a local record: the sublist of
local records is exactly the same before and after the batch, even when
a local record shares the key of an imported row. -/
theorem bulk_import_never_touches_local
    (env : ImportEnv) (store : List Registro) (rows : List Row)
    (hfresh : FreshOK env store)
    (hnodup : (store.map (fun r => r._id)).Nodup) :
    (import_data env store rows).2.filter (fun r => r.data.esLocal) =
      store.filter (fun r => r.data.esLocal) ∧
    (∀ cid fecha tipo eid, find_existing_dato_bolsa store cid fecha tipo = some eid →
      ∃ r ∈ store, r._id = eid ∧ r.data.esLocal = false) ∧
    (∀ (row : Row) (cid : CId) (u : String) (now : ℕ) (dato : RegData),
      prepare_dato_tributario row cid u now = .ok dato → dato.esLocal = false) := by
  have hinv : IdsInv env store { store := store } := by
    exact ⟨hnodup, fun id hid => Or.inl hid⟩
  refine ⟨?_, ?_, fun row cid u now dato hp => prepare_ok_esLocal row cid u now dato hp⟩
  · have := (import_fold_local env store hfresh rows { store := store } hinv).1
    simpa [import_data] using this
  · intro cid fecha tipo eid h
    obtain ⟨r, hr, hid, hloc, _⟩ := find_existing_scope store cid fecha tipo eid h
    exact ⟨r, hr, hid, hloc⟩

/-- Witness for C2: a store holding exactly one LOCAL record whose key
collides with the imported row — after the one-row import the local
sublist is still exactly that record, the upsert lookup does not match
it, and the prepared document is authoritative. -/
theorem bulk_import_never_touches_local_witness :
    ([wLocal].map (fun r => r._id)).Nodup ∧
    (import_data wImportEnvN [wLocal] [wRow]).2.filter (fun r => r.data.esLocal) =
      [wLocal] ∧
    find_existing_dato_bolsa [wLocal]
      (CId.pair (none, some "Cliente con RUT 99999999-9 no está registrado en el sistema"))
      "2024-02-02" "Renta" = none ∧
    wDatoImport.esLocal = false := by
  have hinj : Function.Injective wImportEnvN.freshIds := by
    intro a b h
    simp only [wImportEnvN] at h
    have hd : List.replicate (a + 1) 'n' = List.replicate (b + 1) 'n' :=
      congrArg String.data h
    have := congrArg List.length hd
    simp only [List.length_replicate] at this
    omega
  have havoid : ∀ j, wImportEnvN.freshIds j ∉ [wLocal].map (fun r => r._id) := by
    intro j hj
    simp only [wImportEnvN, wLocal, List.map_cons, List.map_nil,
      List.mem_singleton] at hj
    have hd := congrArg String.data hj
    rw [List.replicate_succ] at hd
    simp at hd
  have h := bulk_import_never_touches_local wImportEnvN [wLocal] [wRow]
    ⟨hinj, havoid⟩ (by decide)
  refine ⟨by decide, ?_, by decide, ?_⟩
  · rw [h.1]; decide
  · exact h.2.2 wRow
      (CId.pair (none, some "Cliente con RUT 99999999-9 no está registrado en el sistema"))
      "u2" 7 wDatoImport rfl

/-- Digits are untouched by cleaning. -/
theorem cleanFixed_of_isDigit (c : Char) (h : c.isDigit = true) : cleanFixed c := by
  refine ⟨?_, ?_, ?_⟩
  · rintro rfl; simp at h
  · rintro rfl; simp at h
  · simp only [Char.isDigit, Bool.and_eq_true, decide_eq_true_eq] at h
    obtain ⟨ha, hb⟩ := h
    have hb' : c.val.toNat ≤ (57 : UInt32).toNat := hb
    have h57 : c.toNat ≤ 57 := by simpa using hb'
    rw [Char.toUpper, if_neg]
    intro ⟨h1, _⟩
    omega

/-- Every character `calculate_rut_dv` can produce (a digit or `K`) is
untouched by cleaning. -/
theorem cleanFixed_dv (body : List Char) (ch : Char)
    (h : ch ∈ calculate_rut_dv body) : cleanFixed ch := by
  rw [calculate_rut_dv] at h
  set s := rutWeightedSum (body.reverse.map charToDigit) 0 with hs
  have hmod : s % 11 < 11 := Nat.mod_lt s (by omega)
  split at h
  · next h11 =>
      simp only [List.mem_singleton] at h
      subst h
      exact ⟨by decide, by decide, by decide⟩
  · split at h
    · next h10 =>
        simp only [List.mem_singleton] at h
        subst h
        exact ⟨by decide, by decide, by decide⟩
    · next h11 h10 =>
        simp only [List.mem_singleton] at h
        subst h
        set d := 11 - s % 11 with hd
        have hb1 : 1 ≤ d := by omega
        have hb2 : d ≤ 9 := by omega
        interval_cases d <;> exact ⟨by decide, by decide, by decide⟩

/-- Cleaning distributes over concatenation. -/
theorem clean_rut_append (a b : List Char) :
    clean_rut (a ++ b) = clean_rut a ++ clean_rut b := by
  simp [clean_rut]

/-- Cleaning is the identity on a string of clean-fixed characters. -/
theorem clean_rut_eq_self (l : List Char) (h : ∀ c ∈ l, cleanFixed c) :
    clean_rut l = l := by
  induction l with
  | nil => rfl
  | cons c rest ih =>
      obtain ⟨h1, h2, h3⟩ := h c (List.mem_cons_self c rest)
      have ih2 := ih (fun x hx => h x (List.mem_cons_of_mem c hx))
      unfold clean_rut
      rw [List.filter_cons_of_pos]
      · rw [List.map_cons, h3]
        exact congrArg (c :: ·) ih2
      · simp [h1, h2]

/-- Cleaning undoes the dot-insertion loop of `format_rut`: the loop
writes its input reversed with dots interspersed, and cleaning removes
exactly the dots. -/
theorem clean_formatLoop (l : List Char) :
    ∀ (i : ℕ) (acc : List Char), (∀ c ∈ l, cleanFixed c) →
    clean_rut (formatLoop l i acc) = l.reverse ++ clean_rut acc := by
  induction l with
  | nil => intro i acc _; simp [formatLoop]
  | cons d rest ih =>
      intro i acc h
      obtain ⟨h1, h2, h3⟩ := h d (List.mem_cons_self d rest)
      have hrest := fun x hx => h x (List.mem_cons_of_mem d hx)
      rw [formatLoop, ih (i + 1) _ hrest]
      have hclean : clean_rut (d :: (if 0 < i ∧ i % 3 = 0 then '.' :: acc else acc)) =
          d :: clean_rut acc := by
        by_cases hc : 0 < i ∧ i % 3 = 0 <;>
          simp [hc, clean_rut, List.filter_cons, h1, h2, h3]
      rw [hclean]
      simp

/-- Cleaning a formatted identifier recovers the cleaned original,
provided the cleaned original is at least two clean-fixed characters. -/
theorem clean_format_rut (rut : List Char)
    (hlen : 2 ≤ (clean_rut rut).length)
    (hfix : ∀ c ∈ clean_rut rut, cleanFixed c) :
    clean_rut (format_rut rut) = clean_rut rut := by
  rcases List.eq_nil_or_concat (clean_rut rut) with hnil | ⟨l', x, hc⟩
  · rw [hnil] at hlen; simp at hlen
  · rw [List.concat_eq_append] at hc
    have hxfix : cleanFixed x := hfix x (by rw [hc]; simp)
    have hl'fix : ∀ c ∈ l'.reverse, cleanFixed c := by
      intro c hcm
      exact hfix c (by rw [hc]; exact List.mem_append_left _ (List.mem_reverse.mp hcm))
    rw [format_rut, if_neg (by omega)]
    rw [hc, List.getLastD_concat, List.dropLast_concat]
    rw [clean_rut_append, clean_formatLoop l'.reverse 0 [] hl'fix]
    obtain ⟨hx1, hx2, hx3⟩ := hxfix
    simp [clean_rut, List.filter_cons, hx1, hx2, hx3, List.reverse_reverse]

/-- C8: formatting then cleaning is a round-trip under validation — for
every identifier `validate_rut` accepts, cleaning the formatted form
(`clean_rut (format_rut id)`) still validates as valid. -/
theorem validate_format_roundtrip (rut : List Char)
    (hvalid : (validate_rut rut).1 = true) :
    (validate_rut (clean_rut (format_rut rut))).1 = true := by
  have hne : rut.isEmpty = false := by
    cases rut with
    | nil => rw [validate_rut] at hvalid; simp at hvalid
    | cons a l => rfl
  rw [validate_rut, hne] at hvalid
  simp only [Bool.false_eq_true, if_false] at hvalid
  have hlen : ¬ (clean_rut rut).length < 2 := by
    intro hlt
    rw [validate_cleaned, if_pos hlt] at hvalid
    simp at hvalid
  have hpy : pyIsdigit (clean_rut rut).dropLast = true := by
    by_contra hnp
    rw [validate_cleaned, if_neg hlen] at hvalid
    dsimp only at hvalid
    rw [if_pos hnp] at hvalid
    simp at hvalid
  have hdv : [(clean_rut rut).getLastD ' '] = calculate_rut_dv (clean_rut rut).dropLast := by
    by_contra hne2
    rw [validate_cleaned, if_neg hlen] at hvalid
    dsimp only at hvalid
    rw [if_neg (by simpa using hpy)] at hvalid
    by_cases hl78 : (clean_rut rut).dropLast.length < 7 ∨ (clean_rut rut).dropLast.length > 8
    · rw [if_pos hl78] at hvalid; simp at hvalid
    · rw [if_neg hl78, if_pos hne2] at hvalid; simp at hvalid
  -- every character of the cleaned identifier is clean-fixed
  have hfix : ∀ c ∈ clean_rut rut, cleanFixed c := by
    intro c hcm
    have hcd : c ∈ (clean_rut rut).dropLast ∨ c = (clean_rut rut).getLastD ' ' := by
      rcases List.eq_nil_or_concat (clean_rut rut) with hnil | ⟨l', x, hc⟩
      · rw [hnil] at hcm; cases hcm
      · rw [List.concat_eq_append] at hc
        rw [hc] at hcm
        rw [hc, List.dropLast_concat, List.getLastD_concat]
        rcases List.mem_append.mp hcm with h1 | h2
        · exact Or.inl h1
        · exact Or.inr (List.mem_singleton.mp h2)
    rcases hcd with h1 | rfl
    · have := (List.all_eq_true.mp ((Bool.and_eq_true _ _).mp hpy).2) c h1
      exact cleanFixed_of_isDigit c (by simpa using this)
    · exact cleanFixed_dv (clean_rut rut).dropLast _ (by rw [← hdv]; simp)
  -- assemble
  have hcf : clean_rut (format_rut rut) = clean_rut rut :=
    clean_format_rut rut (by omega) hfix
  have hii : clean_rut (clean_rut rut) = clean_rut rut := clean_rut_eq_self _ hfix
  have hne2 : (clean_rut (format_rut rut)).isEmpty = false := by
    rw [hcf]
    cases hq : clean_rut rut with
    | nil => rw [hq] at hlen; simp at hlen
    | cons a l => rfl
  rw [validate_rut, hne2]
  simp only [Bool.false_eq_true, if_false]
  rw [hcf, hii]
  exact hvalid

/-- Witness for C8: the valid fixture `12345678-5` still validates after
a format/clean round-trip. -/
theorem validate_format_roundtrip_witness :
    (validate_rut "12345678-5".toList).1 = true ∧
    (validate_rut (clean_rut (format_rut "12345678-5".toList))).1 = true :=
  ⟨by decide, validate_format_roundtrip "12345678-5".toList (by decide)⟩
